import Mathlib

/-!
Verification of the School-Map-Generator single-page application.

The development shallowly embeds the three source files:
  - the record model (School, SchoolStatus) and constants,
  - the CSV-to-domain mapper fetchSchoolData (PapaParse complete callback),
  - the application controller (loadData, waitForLibrary, handleSearch,
    renderContent) and the map adapter (marker redraw effect, selection
    effect).
JavaScript numbers are modelled as exact rationals extended with the
special values Infinity, -Infinity and NaN; numeric string formatting
(used only to build marker ids) is abstracted to an injective-enough
rendering since no verified property depends on its exact shape.
-/

namespace SchoolMap

/-- Status enumeration from types.ts. -/
inductive SchoolStatus where
  | Defined
  | Pending
  | NoService
deriving DecidableEq, Repr

/-- Display string of a status, as in the TypeScript string enum. -/
def SchoolStatus.display : SchoolStatus → String
  | .Defined => "Defined"
  | .Pending => "Pending"
  | .NoService => "No Service"

/-- JavaScript number values: exact rationals extended with the IEEE
special values.  Arithmetic rounding of float64 is not modelled; no
claim here depends on rounding. -/
inductive JsNum where
  | finite (q : ℚ)
  | posInf
  | negInf
  | nan
deriving DecidableEq, Repr

def JsNum.isNaN : JsNum → Bool
  | .nan => true
  | _ => false

def JsNum.isFiniteVal : JsNum → Bool
  | .finite _ => true
  | _ => false

/-- Characters treated as whitespace by the embedded parseFloat and trim
(ASCII subset of the JavaScript whitespace set). -/
def isJsWhitespace (c : Char) : Bool :=
  c = ' ' || c = '\t' || c = '\n' || c = '\r' || c = '\x0b' || c = '\x0c'

def digitVal (c : Char) : ℕ := c.toNat - ('0').toNat

def digitsToNat (ds : List Char) : ℕ :=
  ds.foldl (fun acc c => acc * 10 + digitVal c) 0

/-- Splits a leading optional sign: returns (negative, rest). -/
def stripSign : List Char → Bool × List Char
  | '+' :: rest => (false, rest)
  | '-' :: rest => (true, rest)
  | cs => (false, cs)

/-- Tests whether the second list begins the first one. -/
def charsHavePre : List Char → List Char → Bool
  | _, [] => true
  | [], _ :: _ => false
  | c :: cs, d :: ds => (c = d) && charsHavePre cs ds

/-- Tests whether the second list occurs inside the first one
(the semantics of the JavaScript String.includes). -/
def charsInclude : List Char → List Char → Bool
  | [], needle => needle.isEmpty
  | c :: cs, needle => charsHavePre (c :: cs) needle || charsInclude cs needle

/-- Substring test in the sense of the JavaScript String.includes. -/
def strIncludes (hay sub : String) : Bool :=
  charsInclude hay.data sub.data

/-- Optional exponent part of a decimal literal: [eE][+-]?digits; an
exponent marker without digits is not part of the parsed prefix and
contributes exponent 0, as in the ECMAScript grammar for parseFloat. -/
def parseExponent : List Char → Int
  | c :: rest =>
    if c = 'e' || c = 'E' then
      match stripSign rest with
      | (eneg, rest2) =>
        match rest2.takeWhile Char.isDigit with
        | [] => 0
        | eds => if eneg then -(digitsToNat eds : Int) else (digitsToNat eds : Int)
    else 0
  | [] => 0

/-- Embedded ECMAScript parseFloat over a character list: skip leading
whitespace, optional sign, then either the literal Infinity or a decimal
literal; anything after the longest valid prefix is ignored; no valid
prefix yields NaN. -/
def parseFloatChars (cs0 : List Char) : JsNum :=
  let cs := cs0.dropWhile isJsWhitespace
  match stripSign cs with
  | (neg, cs1) =>
    if charsHavePre cs1 ("Infinity".data) then
      if neg then JsNum.negInf else JsNum.posInf
    else
      let intDs := cs1.takeWhile Char.isDigit
      let cs2 := cs1.dropWhile Char.isDigit
      let fracDs :=
        match cs2 with
        | '.' :: rest => rest.takeWhile Char.isDigit
        | _ => []
      let cs3 :=
        match cs2 with
        | '.' :: rest => rest.dropWhile Char.isDigit
        | _ => cs2
      if intDs.isEmpty && fracDs.isEmpty then JsNum.nan
      else
        let mantissa : ℚ :=
          (digitsToNat intDs : ℚ) + (digitsToNat fracDs : ℚ) / ((10 : ℚ) ^ fracDs.length)
        let e : Int := parseExponent cs3
        let mag : ℚ := mantissa * (10 : ℚ) ^ e
        JsNum.finite (if neg then -mag else mag)

/-- Embedded parseFloat applied to a possibly missing field: a missing
field is the JavaScript undefined, which parseFloat maps to NaN. -/
def jsParseFloat : Option String → JsNum
  | none => JsNum.nan
  | some s => parseFloatChars s.data

/-- Embedded JavaScript String.prototype.trim (ASCII whitespace). -/
def jsTrim (s : String) : String :=
  ⟨((s.data.dropWhile isJsWhitespace).reverse.dropWhile isJsWhitespace).reverse⟩

/-- ASCII lowercase conversion, the fragment of toLowerCase the data
exercises. -/
def jsToLowerChar (c : Char) : Char :=
  if 'A' ≤ c ∧ c ≤ 'Z' then Char.ofNat (c.toNat + 32) else c

def jsToLower (s : String) : String :=
  ⟨s.data.map jsToLowerChar⟩

/-- Value of the JavaScript expression (x || dflt) for a string-or-undefined
field x: undefined and the empty string are falsy. -/
def jsOr (o : Option String) (dflt : String) : String :=
  match o with
  | none => dflt
  | some s => if s = "" then dflt else s

/-- Value of (x || Str.empty) for a string-or-undefined field. -/
def orEmpty (o : Option String) : String := jsOr o ""

/-- One raw CSV row as delivered by the tabular capability with
header:true — each expected column is present or missing. -/
structure RawRow where
  schoolName : Option String := none
  streetAddress : Option String := none
  city : Option String := none
  stateField : Option String := none
  zipCode : Option String := none
  latitude : Option String := none
  longitude : Option String := none
  statusField : Option String := none
  administrativeDesignation : Option String := none
  district : Option String := none
deriving DecidableEq, Repr

/-- Domain entity from types.ts. -/
structure School where
  id : String
  name : String
  address : String
  latitude : JsNum
  longitude : JsNum
  schStatus : SchoolStatus
  administrativeDesignation : String
  district : String
deriving DecidableEq, Repr

/-- Rendering of a number used only inside marker ids; the exact
JavaScript number-to-string algorithm is abstracted. -/
def jsNumRepr : JsNum → String
  | .finite q => toString q.num ++ "/" ++ toString q.den
  | .posInf => "Infinity"
  | .negInf => "-Infinity"
  | .nan => "NaN"

/-- Status-string normalisation of the mapper: exact match after trim. -/
def parseStatus : String → Option SchoolStatus
  | "Defined" => some SchoolStatus.Defined
  | "Pending" => some SchoolStatus.Pending
  | "No Service" => some SchoolStatus.NoService
  | _ => none

/-- Join with a separator, the semantics of Array.prototype.join. -/
def joinWithSep (sep : String) : List String → String
  | [] => ""
  | [x] => x
  | x :: y :: xs => x ++ sep ++ joinWithSep sep (y :: xs)

/-- Address assembly line of the mapper:
[street, city, state].filter(Boolean).join(sep) followed by the zip
with a leading space when the zip is truthy. -/
def fullAddress (street city stateStr zip : String) : String :=
  joinWithSep ", " (List.filter (fun p => p != "") [street, city, stateStr]) ++
    (if zip ≠ "" then " " ++ zip else "")

/-- Warning text for a row dropped over its coordinates. -/
def latLngWarning (index : ℕ) : String :=
  "Skipping row " ++ toString (index + 2) ++ " due to invalid latitude/longitude."

/-- Warning text for a row dropped over its status string. -/
def statusWarning (index : ℕ) (sheetStatus : String) : String :=
  "Skipping row " ++ toString (index + 2) ++ " due to unrecognized status: \"" ++
    sheetStatus ++ "\""

/-- Address value stored by the mapper for a row, including the
No-Address fallback taken when the assembled string is empty. -/
def addressField (row : RawRow) : String :=
  let street := orEmpty row.streetAddress
  let city := orEmpty row.city
  let stateStr := orEmpty row.stateField
  let zip := orEmpty row.zipCode
  let fa := fullAddress street city stateStr zip
  if fa = "" then "No Address Provided" else fa

/-- Per-row body of the mapper inside fetchSchoolData: parse the two
coordinates, reject on NaN; normalise the status, reject unrecognized
values; otherwise build the School record.  A rejection carries the
console warning the code emits for that row. -/
def mapRow (row : RawRow) (index : ℕ) : Except String School :=
  let lat := jsParseFloat row.latitude
  let lng := jsParseFloat row.longitude
  if lat.isNaN || lng.isNaN then
    Except.error (latLngWarning index)
  else
    let sheetStatus := jsTrim (orEmpty row.statusField)
    match parseStatus sheetStatus with
    | none => Except.error (statusWarning index sheetStatus)
    | some st =>
      Except.ok
        { id := jsNumRepr lat ++ "-" ++ jsNumRepr lng ++ "-" ++ toString index
          name := jsOr row.schoolName "Unnamed School"
          address := addressField row
          latitude := lat
          longitude := lng
          schStatus := st
          administrativeDesignation := jsOr row.administrativeDesignation "N/A"
          district := jsOr row.district "N/A" }

/-- Fold of mapRow over the row list starting at a given index,
accumulating the kept entities and the emitted warnings in order. -/
def mapRows : List RawRow → ℕ → List School × List String
  | [], _ => ([], [])
  | r :: rs, i =>
    let rest := mapRows rs (i + 1)
    match mapRow r i with
    | Except.ok s => (s :: rest.1, rest.2)
    | Except.error w => (rest.1, w :: rest.2)

/-- Embedded fetchSchoolData restricted to its complete callback: map
every raw row, skipping invalid ones, and return the kept entities
together with the warnings. -/
def fetchSchoolData (rows : List RawRow) : List School × List String :=
  mapRows rows 0

/-- Projection used to state results about a mapped row without forcing
the whole record. -/
def addrOfResult : Except String School → Option String
  | Except.ok s => some s.address
  | Except.error _ => none

/-- Projection of the name of a mapped row. -/
def nameOfResult : Except String School → Option String
  | Except.ok s => some s.name
  | Except.error _ => none

instance : Inhabited School :=
  ⟨{ id := "", name := "", address := "", latitude := JsNum.nan,
     longitude := JsNum.nan, schStatus := SchoolStatus.Defined,
     administrativeDesignation := "", district := "" }⟩

theorem strAppend_eq_empty {a b : String} : a ++ b = "" ↔ a = "" ∧ b = "" := by
  constructor
  · intro h
    have hd : (a ++ b).data = ("" : String).data := by rw [h]
    rw [String.data_append] at hd
    have := List.append_eq_nil.mp hd
    exact ⟨String.ext this.1, String.ext this.2⟩
  · rintro ⟨rfl, rfl⟩
    rfl

theorem joinWithSep_eq_empty (l : List String) (h : ∀ x ∈ l, x ≠ "") :
    joinWithSep ", " l = "" ↔ l = [] := by
  match l with
  | [] => simp [joinWithSep]
  | [x] =>
    simp only [joinWithSep, List.cons_ne_nil, iff_false]
    exact h x (List.mem_singleton_self x)
  | x :: y :: xs =>
    simp only [joinWithSep, List.cons_ne_nil, iff_false]
    intro hx
    rcases strAppend_eq_empty.mp hx with ⟨hx1, _⟩
    rcases strAppend_eq_empty.mp hx1 with ⟨hx2, hsep⟩
    exact absurd hsep (by decide)

theorem fullAddress_eq_empty_iff (street city stateStr zip : String) :
    fullAddress street city stateStr zip = "" ↔
      street = "" ∧ city = "" ∧ stateStr = "" ∧ zip = "" := by
  unfold fullAddress
  rw [strAppend_eq_empty]
  have hz : ((if zip ≠ "" then " " ++ zip else "") = "") ↔ zip = "" := by
    split
    · rename_i hzip
      constructor
      · intro hc
        exact absurd (strAppend_eq_empty.mp hc).1 (by decide)
      · intro hc
        exact absurd hc hzip
    · rename_i hzip
      push_neg at hzip
      simp [hzip]
  have hfilter : ∀ x ∈ List.filter (fun p => p != "") [street, city, stateStr], x ≠ "" := by
    intro x hx
    have := List.of_mem_filter hx
    simpa using this
  rw [joinWithSep_eq_empty _ hfilter, hz, List.filter_eq_nil_iff]
  constructor
  · rintro ⟨hf, hzip⟩
    have h1 := hf street (by simp)
    have h2 := hf city (by simp)
    have h3 := hf stateStr (by simp)
    exact ⟨by simpa using h1, by simpa using h2, by simpa using h3, hzip⟩
  · rintro ⟨h1, h2, h3, h4⟩
    subst h1; subst h2; subst h3; subst h4
    exact ⟨by simp, rfl⟩

theorem mapRow_ok_fields {r : RawRow} {i : ℕ} {s : School}
    (h : mapRow r i = Except.ok s) :
    s.latitude = jsParseFloat r.latitude ∧ s.longitude = jsParseFloat r.longitude ∧
    (jsParseFloat r.latitude).isNaN = false ∧ (jsParseFloat r.longitude).isNaN = false ∧
    s.address = addressField r ∧ s.name = jsOr r.schoolName "Unnamed School" := by
  unfold mapRow at h
  by_cases hb : ((jsParseFloat r.latitude).isNaN || (jsParseFloat r.longitude).isNaN) = true
  · simp only [hb, if_true] at h
    exact absurd h (by simp)
  · simp only [hb, if_false, Bool.false_eq_true] at h
    have hb2 := hb
    rw [Bool.or_eq_true] at hb2
    push_neg at hb2
    rcases hb2 with ⟨hlat, hlng⟩
    cases hst : parseStatus (jsTrim (orEmpty r.statusField)) with
    | none =>
      rw [hst] at h
      exact absurd h (by simp)
    | some st =>
      rw [hst] at h
      injection h with h
      subst h
      exact ⟨rfl, rfl, Bool.eq_false_iff.mpr hlat, Bool.eq_false_iff.mpr hlng, rfl, rfl⟩

theorem mem_mapRows_ok {rows : List RawRow} {i : ℕ} {s : School}
    (h : s ∈ (mapRows rows i).1) :
    ∃ r j, mapRow r j = Except.ok s := by
  induction rows generalizing i with
  | nil => simp [mapRows] at h
  | cons r rs ih =>
    cases hm : mapRow r i with
    | ok s0 =>
      simp only [mapRows, hm, List.mem_cons] at h
      cases h with
      | inl he => exact ⟨r, i, by rw [hm, he]⟩
      | inr hmem => exact ih hmem
    | error w =>
      simp only [mapRows, hm] at h
      exact ih h

theorem mapRows_length (rows : List RawRow) (i : ℕ) :
    (mapRows rows i).1.length + (mapRows rows i).2.length = rows.length := by
  induction rows generalizing i with
  | nil => simp [mapRows]
  | cons r rs ih =>
    cases hm : mapRow r i with
    | ok s0 =>
      simp only [mapRows, hm, List.length_cons]
      have := ih (i + 1)
      omega
    | error w =>
      simp only [mapRows, hm, List.length_cons]
      have := ih (i + 1)
      omega

theorem mapRows_error_mem :
    ∀ (rows : List RawRow) (i0 j : ℕ) (hj : j < rows.length) {w : String},
      mapRow (rows.get ⟨j, hj⟩) (i0 + j) = Except.error w →
      w ∈ (mapRows rows i0).2 := by
  intro rows
  induction rows with
  | nil =>
    intro i0 j hj
    exact absurd hj (by simp)
  | cons r rs ih =>
    intro i0 j hj w hw
    cases j with
    | zero =>
      simp only [List.get] at hw
      rw [Nat.add_zero] at hw
      cases hm : mapRow r i0 with
      | ok s0 => rw [hm] at hw; exact absurd hw (by simp)
      | error w0 =>
        rw [hm] at hw
        injection hw with hw
        simp only [mapRows, hm]
        subst hw
        exact List.mem_cons_self _ _
    | succ j0 =>
      have hj0 : j0 < rs.length := by
        simpa using Nat.lt_of_succ_lt_succ hj
      have hrec : mapRow (rs.get ⟨j0, hj0⟩) ((i0 + 1) + j0) = Except.error w := by
        have : (i0 + 1) + j0 = i0 + (j0 + 1) := by omega
        rw [this]
        exact hw
      have hmem := ih (i0 + 1) j0 hj0 hrec
      cases hm : mapRow r i0 with
      | ok s0 => simpa [mapRows, hm] using hmem
      | error w0 =>
        simp only [mapRows, hm]
        exact List.mem_cons_of_mem w0 hmem

/-! Application controller (App.tsx): state, loadData, waitForLibrary,
handleSearch and the content-view selector. -/

/-- Remediation hint chosen by keyword classification of the failure
message; the JSX bodies are abstracted to tags. -/
inductive Hint where
  | mapsHint
  | papaHint
  | genericHint
deriving DecidableEq, Repr

/-- Error value held by the controller. -/
structure AppError where
  message : String
  details : Hint
deriving DecidableEq, Repr

/-- React state of the App component. -/
structure ControllerState where
  schools : List School
  isLoading : Bool
  error : Option AppError
  searchTerm : String
  selectedSchool : Option School
  lastUpdated : Option ℕ
deriving DecidableEq, Repr

/-- Outcome of one load cycle: the awaited fetch either resolves with
data at some timestamp or throws with a message. -/
inductive LoadOutcome where
  | success (data : List School) (time : ℕ)
  | failure (msg : String)
deriving DecidableEq, Repr

/-- Keyword classification of the catch branch in loadData. -/
def classifyDetails (msg : String) : Hint :=
  if strIncludes msg "google" || strIncludes msg "Google" then Hint.mapsHint
  else if strIncludes msg "Papa" then Hint.papaHint
  else Hint.genericHint

/-- Effect of the two statements at the top of loadData. -/
def loadDataStart (st : ControllerState) : ControllerState :=
  { st with isLoading := true, error := none }

/-- Effect of the completion of loadData: the try branch on success, the
catch branch on failure, and the finally branch in both cases. -/
def loadDataFinish (st : ControllerState) (out : LoadOutcome) : ControllerState :=
  match out with
  | LoadOutcome.success data t =>
    { st with schools := data, lastUpdated := some t, isLoading := false }
  | LoadOutcome.failure msg =>
    { st with error := some { message := msg, details := classifyDetails msg },
              lastUpdated := none, isLoading := false }

/-- One whole uninterrupted load cycle. -/
def loadData (st : ControllerState) (out : LoadOutcome) : ControllerState :=
  loadDataFinish (loadDataStart st) out

/-- Timeout message of waitForLibrary. -/
def libraryTimeoutMsg (name : String) : String :=
  "The \x27" ++ name ++ "\x27 library failed to load from the CDN, please check your network connection."

/-- Attempt ceiling of waitForLibrary (maxAttempts in the source). -/
def maxPollAttempts : ℕ := 50

/-- Poll interval of waitForLibrary in milliseconds. -/
def pollIntervalMs : ℕ := 100

/-- Polling loop of waitForLibrary: at tick t the availability predicate
is sampled; on success the resolved tick is returned, and on the tick at
which the remaining fuel is exhausted (attempts exceed the ceiling) the
promise rejects with the timeout message. -/
def waitLoop (name : String) (avail : ℕ → Bool) (t : ℕ) : ℕ → Except String ℕ
  | 0 => if avail t then Except.ok t else Except.error (libraryTimeoutMsg name)
  | fuel + 1 =>
    if avail t then Except.ok t else waitLoop name avail (t + 1) fuel

/-- Embedded waitForLibrary: polling starts at tick 1 (the first
setInterval firing, 100 ms in) and rejects on the tick at which the
attempt counter first exceeds maxAttempts. -/
def waitForLibrary (name : String) (avail : ℕ → Bool) : Except String ℕ :=
  waitLoop name avail 1 maxPollAttempts

/-- Search submit handler: blank input clears the selection; otherwise
the first entity whose lowercased name contains the lowercased input is
selected; with no match an alert is issued and the selection cleared.
The returned string is the alert text, when one is shown. -/
def handleSearch (st : ControllerState) : ControllerState × Option String :=
  if jsTrim st.searchTerm = "" then
    ({ st with selectedSchool := none }, none)
  else
    let lower := jsToLower st.searchTerm
    match st.schools.find? (fun sc => strIncludes (jsToLower sc.name) lower) with
    | some sc => ({ st with selectedSchool := some sc }, none)
    | none =>
      ({ st with selectedSchool := none },
        some ("No school found matching \"" ++ st.searchTerm ++ "\"."))

/-- Views the render branch can produce. -/
inductive View where
  | spinner
  | errorView (e : AppError)
  | mapView (schools : List School) (sel : Option School)
deriving DecidableEq, Repr

/-- Embedded renderContent of App.tsx. -/
def renderContent (st : ControllerState) : View :=
  if st.isLoading && st.schools.isEmpty then View.spinner
  else
    match st.error with
    | some e => View.errorView e
    | none => View.mapView st.schools st.selectedSchool

/-- Availability of the header refresh control: the control block is
rendered only when not loading and not in error, and the button is
additionally disabled while loading. -/
def refreshControlEnabled (st : ControllerState) : Bool :=
  (!st.isLoading && st.error.isNone) && !st.isLoading

/-! Map adapter (MapComponent.tsx): marker redraw and selection effects. -/

/-- Marker icon selection from constants.ts. -/
def MARKER_ICONS : SchoolStatus → String
  | SchoolStatus.Defined => "http://maps.google.com/mapfiles/ms/icons/green-dot.png"
  | SchoolStatus.Pending => "http://maps.google.com/mapfiles/ms/icons/yellow-dot.png"
  | SchoolStatus.NoService => "http://maps.google.com/mapfiles/ms/icons/red-dot.png"

/-- Rendered marker: position, title and icon, as passed to the widget
constructor. -/
structure Marker where
  lat : JsNum
  lng : JsNum
  title : String
  icon : String
deriving DecidableEq, Repr

/-- Marker built for one school in the redraw effect. -/
def mkMarker (s : School) : Marker :=
  { lat := s.latitude, lng := s.longitude, title := s.name,
    icon := MARKER_ICONS s.schStatus }

/-- Semantics of JavaScript Map.prototype.set on an association list. -/
def mapSet (m : List (String × Marker)) (k : String) (v : Marker) :
    List (String × Marker) :=
  if m.any (fun p => p.1 == k) then
    m.map (fun p => if p.1 == k then (k, v) else p)
  else m ++ [(k, v)]

/-- Registry contents produced by the forEach body of the redraw effect
starting from the cleared registry. -/
def buildMarkers (schools : List School) : List (String × Marker) :=
  schools.foldl (fun m s => mapSet m s.id (mkMarker s)) []

/-- Embedded marker effect of MapComponent: the body runs only when the
collection is non-empty; it then clears every previously rendered marker
and the registry and creates one fresh marker per current entity. -/
def markersEffect (registry : List (String × Marker)) (schools : List School) :
    List (String × Marker) :=
  if schools.isEmpty then registry else buildMarkers schools

/-- Semantics of Map.prototype.get on the registry. -/
def lookupMarker (registry : List (String × Marker)) (id : String) : Option Marker :=
  (registry.find? (fun p => p.1 == id)).map (fun p => p.2)

/-- Popup content for a school: the constant HTML template is abstracted
to the tuple of values interpolated into it. -/
structure PopupContent where
  name : String
  designation : String
  district : String
  address : String
  schStatus : SchoolStatus
  anchorId : String
deriving DecidableEq, Repr

def popupContentFor (s : School) : PopupContent :=
  { name := s.name, designation := s.administrativeDesignation,
    district := s.district, address := s.address, schStatus := s.schStatus,
    anchorId := s.id }

/-- View state the selection effect manipulates: map center, zoom level
and the single shared popup. -/
structure ViewState where
  center : JsNum × JsNum
  zoom : ℕ
  openPopup : Option PopupContent
deriving DecidableEq, Repr

/-- Embedded selection effect of MapComponent: when a school is selected
and its marker is in the registry, pan to its coordinates, set zoom 15
and open the popup for its marker; otherwise do nothing. -/
def selectionEffect (registry : List (String × Marker)) (sel : Option School)
    (v : ViewState) : ViewState :=
  match sel with
  | none => v
  | some s =>
    match lookupMarker registry s.id with
    | none => v
    | some _ =>
      { center := (s.latitude, s.longitude), zoom := 15,
        openPopup := some (popupContentFor s) }

theorem headI_mem_of_ne_nil (l : List School) (h : l ≠ []) : l.headI ∈ l := by
  cases l with
  | nil => exact absurd rfl h
  | cons a l0 => exact List.mem_cons_self a l0

/-- Row whose latitude parses to Infinity: parseFloat accepts the
literal Infinity, which is not NaN, so the mapper keeps the row. -/
def infinityRow : RawRow :=
  { latitude := some "Infinity", longitude := some "0",
    statusField := some "Defined" }

/-- C1 counterexample: the CSV input consisting of the single row with
latitude Infinity, longitude 0 and status Defined produces a collection
containing one School whose latitude is not finite, so not every School
in the collection has a finite latitude. -/
theorem C1_counterexample :
    ((fetchSchoolData [infinityRow]).1.map (fun s => s.latitude.isFiniteVal)) =
      [false] := by
  rfl

/-- C1 (amended): every School in the collection returned by
fetchSchoolData has a non-NaN latitude, a non-NaN longitude and a status
equal to one of the three enumeration values; any raw row for which this
would not hold is dropped during mapping.  (The mapper only rejects NaN
coordinates, so an infinite coordinate such as parseFloat of the literal
Infinity is kept; finiteness is not guaranteed.) -/
theorem C1_entities_valid (rows : List RawRow) (s : School)
    (h : s ∈ (fetchSchoolData rows).1) :
    s.latitude.isNaN = false ∧ s.longitude.isNaN = false ∧
    (s.schStatus = SchoolStatus.Defined ∨ s.schStatus = SchoolStatus.Pending ∨
      s.schStatus = SchoolStatus.NoService) := by
  obtain ⟨r, j, hok⟩ := mem_mapRows_ok h
  have hf := mapRow_ok_fields hok
  refine ⟨?_, ?_, ?_⟩
  · rw [hf.1]
    exact hf.2.2.1
  · rw [hf.2.1]
    exact hf.2.2.2.1
  · cases s.schStatus with
    | Defined => exact Or.inl rfl
    | Pending => exact Or.inr (Or.inl rfl)
    | NoService => exact Or.inr (Or.inr rfl)

def c1GoodRow : RawRow :=
  { latitude := some "40.7", longitude := some "-74",
    statusField := some "Pending", schoolName := some "A" }

theorem C1_witness :
    (fetchSchoolData [c1GoodRow]).1.headI.latitude.isNaN = false ∧
    (fetchSchoolData [c1GoodRow]).1.headI.longitude.isNaN = false ∧
    ((fetchSchoolData [c1GoodRow]).1.headI.schStatus = SchoolStatus.Defined ∨
      (fetchSchoolData [c1GoodRow]).1.headI.schStatus = SchoolStatus.Pending ∨
      (fetchSchoolData [c1GoodRow]).1.headI.schStatus = SchoolStatus.NoService) := by
  have hne : (fetchSchoolData [c1GoodRow]).1 ≠ [] := by decide
  exact C1_entities_valid [c1GoodRow] (fetchSchoolData [c1GoodRow]).1.headI
    (headI_mem_of_ne_nil _ hne)

/-- C2: a row whose latitude or longitude parses to NaN (non-numeric or
missing) is rejected by the mapper with the warning naming its
spreadsheet position (list index plus two), that warning appears in the
emitted warning list, and the length of the produced collection equals
the number of input rows minus the number of excluded rows (one warning
is emitted per excluded row, so the warning count is the excluded
count). -/
theorem C2_invalid_coord_rows_excluded (rows : List RawRow) (j : ℕ)
    (hj : j < rows.length)
    (hbad : (jsParseFloat (rows.get ⟨j, hj⟩).latitude).isNaN = true ∨
      (jsParseFloat (rows.get ⟨j, hj⟩).longitude).isNaN = true) :
    mapRow (rows.get ⟨j, hj⟩) j = Except.error (latLngWarning j) ∧
    latLngWarning j ∈ (fetchSchoolData rows).2 ∧
    (fetchSchoolData rows).1.length + (fetchSchoolData rows).2.length = rows.length ∧
    (fetchSchoolData rows).1.length = rows.length - (fetchSchoolData rows).2.length := by
  have hcond : ((jsParseFloat (rows.get ⟨j, hj⟩).latitude).isNaN ||
      (jsParseFloat (rows.get ⟨j, hj⟩).longitude).isNaN) = true := by
    rw [Bool.or_eq_true]
    exact hbad
  have herr : mapRow (rows.get ⟨j, hj⟩) j = Except.error (latLngWarning j) := by
    simp only [mapRow]
    rw [hcond]
    rfl
  have hlen : (fetchSchoolData rows).1.length + (fetchSchoolData rows).2.length =
      rows.length := mapRows_length rows 0
  refine ⟨herr, ?_, hlen, by omega⟩
  have hw : mapRow (rows.get ⟨j, hj⟩) (0 + j) = Except.error (latLngWarning j) := by
    rw [Nat.zero_add]
    exact herr
  exact mapRows_error_mem rows 0 j hj hw

def c2GoodRow : RawRow :=
  { latitude := some "40.7", longitude := some "-74",
    statusField := some "Defined" }

def c2BadRow : RawRow :=
  { latitude := some "abc", longitude := some "0",
    statusField := some "Defined" }

theorem C2_witness :
    latLngWarning 1 ∈ (fetchSchoolData [c2GoodRow, c2BadRow]).2 ∧
    (fetchSchoolData [c2GoodRow, c2BadRow]).1.length =
      2 - (fetchSchoolData [c2GoodRow, c2BadRow]).2.length := by
  have hj : (1 : ℕ) < ([c2GoodRow, c2BadRow] : List RawRow).length := by decide
  have hbad : (jsParseFloat (([c2GoodRow, c2BadRow] : List RawRow).get
      ⟨1, hj⟩).latitude).isNaN = true := by
    show (jsParseFloat c2BadRow.latitude).isNaN = true
    decide
  have h := C2_invalid_coord_rows_excluded [c2GoodRow, c2BadRow] 1 hj (Or.inl hbad)
  exact ⟨h.2.1, h.2.2.2⟩

def c3Row : RawRow :=
  { schoolName := some "PS 1", streetAddress := some "123 Main St",
    city := some "Brooklyn", stateField := some "NY",
    zipCode := some "11201", latitude := some "40.7",
    longitude := some "-74", statusField := some "Defined" }

/-- C3: the display address of the accepted row with street 123 Main St,
city Brooklyn, state NY and zip 11201 is exactly the expected string;
and an empty city contributes no segment: the assembled address equals
the join of the remaining parts, so no empty segment and no doubled
comma appear. -/
theorem C3_address_assembly :
    addrOfResult (mapRow c3Row 0) = some "123 Main St, Brooklyn, NY 11201" ∧
    (∀ street stateStr zip, fullAddress street "" stateStr zip =
      joinWithSep ", " (List.filter (fun p => p != "") [street, stateStr]) ++
        (if zip ≠ "" then " " ++ zip else "")) := by
  constructor
  · rfl
  · intro street stateStr zip
    unfold fullAddress
    have hfil : List.filter (fun p => p != "") [street, "", stateStr] =
        List.filter (fun p => p != "") [street, stateStr] := by
      simp [List.filter_cons]
    rw [hfil]

/-- C10: the assembled address is empty exactly when street, city, state
and zip are all empty (so the No-Address fallback branch fires exactly
then); with street, city and state empty and a non-empty zip the
assembled address is a single space followed by the zip; the address
stored on an accepted School is exactly the assembled-or-fallback value;
and a missing School Name defaults to Unnamed School. -/
theorem C10_address_and_name_defaults (street city2 stateStr zip : String)
    (row : RawRow) (i : ℕ) (s : School) :
    (fullAddress street city2 stateStr zip = "" ↔
      (street = "" ∧ city2 = "" ∧ stateStr = "" ∧ zip = "")) ∧
    (street = "" → city2 = "" → stateStr = "" → zip ≠ "" →
      fullAddress street city2 stateStr zip = " " ++ zip) ∧
    (mapRow row i = Except.ok s → s.address = addressField row) ∧
    (mapRow row i = Except.ok s → row.schoolName = none →
      s.name = "Unnamed School") := by
  refine ⟨fullAddress_eq_empty_iff street city2 stateStr zip, ?_, ?_, ?_⟩
  · intro h1 h2 h3 h4
    subst h1; subst h2; subst h3
    unfold fullAddress
    simp [List.filter_cons, h4, joinWithSep]
  · intro hok
    exact (mapRow_ok_fields hok).2.2.2.2.1
  · intro hok hname
    have := (mapRow_ok_fields hok).2.2.2.2.2
    rw [this, hname]
    rfl

def c10Row : RawRow :=
  { latitude := some "40.7", longitude := some "-74",
    statusField := some "No Service" }

theorem C10_witness :
    fullAddress "" "" "" "11201" = " " ++ "11201" ∧
    (fetchSchoolData [c10Row]).1.headI.name = "Unnamed School" ∧
    (fetchSchoolData [c10Row]).1.headI.address = addressField c10Row := by
  have h := C10_address_and_name_defaults "" "" "" "11201" c10Row 0
    ((fetchSchoolData [c10Row]).1.headI)
  have hok : mapRow c10Row 0 =
      Except.ok ((fetchSchoolData [c10Row]).1.headI) := rfl
  exact ⟨h.2.1 rfl rfl rfl (by decide), h.2.2.2 hok rfl, h.2.2.1 hok⟩

/-- C4: the search action never touches the schools collection; a blank
(all-whitespace) input clears the selection without an alert; a
non-blank input selects the first entity, in collection order, whose
name contains the input case-insensitively, without an alert; with no
matching entity an alert is issued and the selection cleared; and the
lowercased name Lincoln High School contains the lowercased input
lincoln. -/
theorem C4_search_behaviour (st : ControllerState) :
    (handleSearch st).1.schools = st.schools ∧
    (jsTrim st.searchTerm = "" →
      (handleSearch st).1.selectedSchool = none ∧ (handleSearch st).2 = none) ∧
    (∀ sc, jsTrim st.searchTerm ≠ "" →
      st.schools.find?
          (fun s0 => strIncludes (jsToLower s0.name) (jsToLower st.searchTerm)) =
        some sc →
      (handleSearch st).1.selectedSchool = some sc ∧ (handleSearch st).2 = none) ∧
    (jsTrim st.searchTerm ≠ "" →
      st.schools.find?
          (fun s0 => strIncludes (jsToLower s0.name) (jsToLower st.searchTerm)) =
        none →
      (handleSearch st).1.selectedSchool = none ∧
      (handleSearch st).2 =
        some ("No school found matching \"" ++ st.searchTerm ++ "\".")) ∧
    strIncludes (jsToLower "Lincoln High School") (jsToLower "lincoln") = true := by
  refine ⟨?_, ?_, ?_, ?_, by decide⟩
  · simp only [handleSearch]
    split
    · rfl
    · split <;> rfl
  · intro ht
    simp [handleSearch, ht]
  · intro sc ht hfind
    simp [handleSearch, ht, hfind]
  · intro ht hfind
    simp [handleSearch, ht, hfind]

def c4Other : School :=
  { id := "O1", name := "Other School", address := "", latitude := JsNum.nan,
    longitude := JsNum.nan, schStatus := SchoolStatus.Pending,
    administrativeDesignation := "", district := "" }

def c4Lincoln : School :=
  { id := "L1", name := "Lincoln High School", address := "", latitude := JsNum.nan,
    longitude := JsNum.nan, schStatus := SchoolStatus.Defined,
    administrativeDesignation := "", district := "" }

def c4State : ControllerState :=
  { schools := [c4Other, c4Lincoln], isLoading := false, error := none,
    searchTerm := "lincoln", selectedSchool := none, lastUpdated := none }

theorem C4_witness :
    (handleSearch c4State).1.schools = c4State.schools ∧
    (handleSearch c4State).1.selectedSchool = some c4Lincoln ∧
    (handleSearch c4State).2 = none := by
  have h := C4_search_behaviour c4State
  have hne : jsTrim c4State.searchTerm ≠ "" := by decide
  have hfind : c4State.schools.find?
      (fun s0 => strIncludes (jsToLower s0.name) (jsToLower c4State.searchTerm)) =
        some c4Lincoln := by rfl
  have hsel := h.2.2.1 c4Lincoln hne hfind
  exact ⟨h.1, hsel.1, hsel.2⟩

/-- Initial React state of the App component. -/
def idleState : ControllerState :=
  { schools := [], isLoading := true, error := none, searchTerm := "",
    selectedSchool := none, lastUpdated := none }

def sampleSchool : School :=
  { id := "S0", name := "Sample School", address := "1 Street", latitude := JsNum.nan,
    longitude := JsNum.nan, schStatus := SchoolStatus.Defined,
    administrativeDesignation := "N/A", district := "N/A" }

def c5State : ControllerState :=
  { schools := [sampleSchool], isLoading := false, error := none,
    searchTerm := "", selectedSchool := some sampleSchool, lastUpdated := some 5 }

/-- C5 counterexample: a failing load started from a Ready state with one
school and a selection ends with the error set while the schools
collection and the selection are both left in place, so the collection
and the selection are not cleared on error. -/
theorem C5_counterexample :
    ((loadData c5State (LoadOutcome.failure "boom")).error).isSome = true ∧
    (loadData c5State (LoadOutcome.failure "boom")).schools ≠ [] ∧
    (loadData c5State (LoadOutcome.failure "boom")).selectedSchool ≠ none := by
  exact ⟨rfl, by decide, by decide⟩

/-- C5 (amended): whenever a load fails, the controller records the
error together with the keyword-classified remediation hint, clears the
last-updated timestamp and ends loading; the schools collection and the
selection are left unchanged; stale results are nonetheless not rendered
alongside the error, because the content view then shows the error
display instead of the map. -/
theorem C5_failure_behaviour (st : ControllerState) (msg : String) :
    (loadData st (LoadOutcome.failure msg)).error =
      some { message := msg, details := classifyDetails msg } ∧
    (loadData st (LoadOutcome.failure msg)).isLoading = false ∧
    (loadData st (LoadOutcome.failure msg)).lastUpdated = none ∧
    (loadData st (LoadOutcome.failure msg)).schools = st.schools ∧
    (loadData st (LoadOutcome.failure msg)).selectedSchool = st.selectedSchool ∧
    renderContent (loadData st (LoadOutcome.failure msg)) =
      View.errorView { message := msg, details := classifyDetails msg } := by
  refine ⟨rfl, rfl, rfl, rfl, rfl, ?_⟩
  simp [renderContent, loadData, loadDataStart, loadDataFinish]

def staleSchool : School :=
  { id := "ST", name := "Stale", address := "", latitude := JsNum.nan,
    longitude := JsNum.nan, schStatus := SchoolStatus.Pending,
    administrativeDesignation := "", district := "" }

def newerSchool : School :=
  { id := "NW", name := "Newer", address := "", latitude := JsNum.nan,
    longitude := JsNum.nan, schStatus := SchoolStatus.Defined,
    administrativeDesignation := "", district := "" }

/-- Final state of two overlapping load cycles in which the newer load
completes first and the older, superseded load completes last. -/
def c6Final : ControllerState :=
  loadDataFinish
    (loadDataFinish (loadDataStart (loadDataStart idleState))
      (LoadOutcome.success [newerSchool] 2))
    (LoadOutcome.success [staleSchool] 1)

/-- C6 counterexample: with two overlapping loads, the superseded load
that completes after the newer load has already completed overwrites the
newer result — the final collection is the stale data, not the newer
data — so no generation guard discards superseded results. -/
theorem C6_counterexample :
    c6Final.schools.map (fun s => s.name) = ["Stale"] ∧
    (["Stale"] : List String) ≠ ["Newer"] := by
  exact ⟨rfl, by decide⟩

/-- C6 (amended): the code has no load-generation counter; a load
completion unconditionally overwrites the schools collection, so with
overlapping load cycles whichever load completes last wins, even when it
is the older one.  Overlap is instead discouraged at the interface
level: starting a load sets the loading flag and while it is set the
refresh control is not available. -/
theorem C6_last_completion_wins (st : ControllerState)
    (dataStale dataNewer : List School) (t1 t2 : ℕ) :
    (loadDataFinish (loadDataFinish st (LoadOutcome.success dataNewer t2))
        (LoadOutcome.success dataStale t1)).schools = dataStale ∧
    (loadDataStart st).isLoading = true ∧
    refreshControlEnabled (loadDataStart st) = false := by
  exact ⟨rfl, rfl, by simp [refreshControlEnabled, loadDataStart]⟩

theorem waitLoop_never (name : String) (avail : ℕ → Bool)
    (h : ∀ t, avail t = false) :
    ∀ fuel t, waitLoop name avail t fuel = Except.error (libraryTimeoutMsg name) := by
  intro fuel
  induction fuel with
  | zero =>
    intro t
    simp [waitLoop, h t]
  | succ f ih =>
    intro t
    simp only [waitLoop, h t, Bool.false_eq_true, if_false]
    exact ih (t + 1)

theorem waitLoop_ok_bound (name : String) (avail : ℕ → Bool) :
    ∀ fuel t r, waitLoop name avail t fuel = Except.ok r → r ≤ t + fuel := by
  intro fuel
  induction fuel with
  | zero =>
    intro t r h
    by_cases ha : avail t = true
    · simp only [waitLoop, ha, if_true] at h
      injection h with h
      omega
    · simp only [waitLoop, ha, if_false] at h
      exact absurd h (by simp)
  | succ f ih =>
    intro t r h
    by_cases ha : avail t = true
    · simp only [waitLoop, ha, if_true] at h
      injection h with h
      omega
    · simp only [waitLoop, ha, if_false] at h
      have := ih (t + 1) r h
      omega

/-- C7: when a required capability never becomes available, the polling
wait rejects with the capability-unavailable message, that message names
the capability that timed out (the map widget global google and the
tabular parser global Papa), any successful wait resolves within the
fixed attempt ceiling, the whole polling bound is 5.1 seconds of ticks
at the fixed 100 ms interval, and feeding the timeout failure into a
load cycle ends in the error state with loading over — not an indefinite
loading state — with the hint matching the capability. -/
theorem C7_capability_timeout (st : ControllerState) (avail : ℕ → Bool)
    (h : ∀ t, avail t = false) :
    waitForLibrary "google" avail = Except.error (libraryTimeoutMsg "google") ∧
    waitForLibrary "Papa" avail = Except.error (libraryTimeoutMsg "Papa") ∧
    strIncludes (libraryTimeoutMsg "google") "google" = true ∧
    strIncludes (libraryTimeoutMsg "Papa") "Papa" = true ∧
    (∀ (avail2 : ℕ → Bool) (name : String) (r : ℕ),
      waitForLibrary name avail2 = Except.ok r → r ≤ 1 + maxPollAttempts) ∧
    pollIntervalMs * (1 + maxPollAttempts) = 5100 ∧
    classifyDetails (libraryTimeoutMsg "google") = Hint.mapsHint ∧
    classifyDetails (libraryTimeoutMsg "Papa") = Hint.papaHint ∧
    (loadData st (LoadOutcome.failure (libraryTimeoutMsg "google"))).error =
      some { message := libraryTimeoutMsg "google", details := Hint.mapsHint } ∧
    (loadData st (LoadOutcome.failure (libraryTimeoutMsg "google"))).isLoading = false ∧
    renderContent (loadData st (LoadOutcome.failure (libraryTimeoutMsg "google"))) =
      View.errorView
        { message := libraryTimeoutMsg "google", details := Hint.mapsHint } := by
  refine ⟨waitLoop_never "google" avail h maxPollAttempts 1,
    waitLoop_never "Papa" avail h maxPollAttempts 1,
    by decide, by decide, ?_, by decide, by decide, by decide, rfl, rfl, ?_⟩
  · intro avail2 name r hr
    exact waitLoop_ok_bound name avail2 maxPollAttempts 1 r hr
  · simp [renderContent, loadData, loadDataStart, loadDataFinish]
    decide

theorem C7_witness :
    waitForLibrary "google" (fun _ => false) =
      Except.error (libraryTimeoutMsg "google") ∧
    (loadData idleState
      (LoadOutcome.failure (libraryTimeoutMsg "google"))).isLoading = false := by
  have h := C7_capability_timeout idleState (fun _ => false) (fun _ => rfl)
  exact ⟨h.1, h.2.2.2.2.2.2.2.2.2.1⟩

theorem mapSet_of_not_mem (m : List (String × Marker)) (k : String) (v : Marker)
    (h : m.any (fun p => p.1 == k) = false) : mapSet m k v = m ++ [(k, v)] := by
  simp [mapSet, h]

theorem buildMarkers_go (schools : List School) :
    ∀ acc : List (String × Marker),
      (schools.map (fun s => s.id)).Nodup →
      (∀ s ∈ schools, ∀ p ∈ acc, p.1 ≠ s.id) →
      schools.foldl (fun m s => mapSet m s.id (mkMarker s)) acc =
        acc ++ schools.map (fun s => (s.id, mkMarker s)) := by
  induction schools with
  | nil =>
    intro acc _ _
    simp
  | cons s ss ih =>
    intro acc hnd hdisj
    have hany : acc.any (fun p => p.1 == s.id) = false := by
      cases hq : acc.any (fun p => p.1 == s.id) with
      | false => rfl
      | true =>
        obtain ⟨p, hp, hpk⟩ := List.any_eq_true.mp hq
        exact absurd (by simpa using hpk)
          (hdisj s (List.mem_cons_self s ss) p hp)
    have hnd0 : s.id ∉ ss.map (fun s0 => s0.id) ∧
        (ss.map (fun s0 => s0.id)).Nodup := by
      rw [List.map_cons, List.nodup_cons] at hnd
      exact hnd
    have hdisj2 : ∀ s0 ∈ ss, ∀ p ∈ acc ++ [(s.id, mkMarker s)], p.1 ≠ s0.id := by
      intro s0 hs0 p hp
      rcases List.mem_append.mp hp with hp2 | hp2
      · exact hdisj s0 (List.mem_cons_of_mem s hs0) p hp2
      · have hpe : p = (s.id, mkMarker s) := by simpa using hp2
        subst hpe
        intro hc
        have hc2 : s.id = s0.id := hc
        exact hnd0.1 (by rw [hc2]; exact List.mem_map_of_mem (fun s1 => s1.id) hs0)
    rw [List.foldl_cons, mapSet_of_not_mem acc s.id (mkMarker s) hany,
      ih (acc ++ [(s.id, mkMarker s)]) hnd0.2 hdisj2]
    simp

def staleMarker : Marker :=
  { lat := JsNum.nan, lng := JsNum.nan, title := "old", icon := "i" }

/-- C8 counterexample: when the entity collection is replaced by the
empty collection, the redraw effect body is skipped (it is guarded by a
non-empty check), so the previously rendered marker stays in the
registry instead of being removed. -/
theorem C8_counterexample :
    markersEffect [("old-id", staleMarker)] [] = [("old-id", staleMarker)] ∧
    ([("old-id", staleMarker)] : List (String × Marker)) ≠ [] := by
  exact ⟨rfl, by decide⟩

/-- C8 (amended): every time the entity collection passed to the map
adapter is replaced by a non-empty collection, all previously rendered
markers are removed (the new registry does not depend on the old one)
and, whenever the entity identifiers are distinct, the new registry
holds exactly one fresh marker per entity of the current collection in
order (full redraw, no diffing); when the new collection is empty the
effect is skipped and the previously rendered markers remain. -/
theorem C8_marker_redraw (registry registry2 : List (String × Marker))
    (schools : List School) :
    (schools ≠ [] → markersEffect registry schools = markersEffect registry2 schools) ∧
    ((schools.map (fun s => s.id)).Nodup → schools ≠ [] →
      markersEffect registry schools =
        schools.map (fun s => (s.id, mkMarker s))) ∧
    markersEffect registry [] = registry := by
  refine ⟨?_, ?_, rfl⟩
  · intro h
    cases schools with
    | nil => exact absurd rfl h
    | cons a l => rfl
  · intro hnd h
    cases schools with
    | nil => exact absurd rfl h
    | cons a l =>
      show buildMarkers (a :: l) = _
      unfold buildMarkers
      have hgo := buildMarkers_go (a :: l) [] hnd (by intro s0 _ p hp; simp at hp)
      simpa using hgo

def c8School : School :=
  { id := "M1", name := "Mapped School", address := "", latitude := JsNum.nan,
    longitude := JsNum.nan, schStatus := SchoolStatus.NoService,
    administrativeDesignation := "", district := "" }

theorem C8_witness :
    markersEffect [("old-id", staleMarker)] [c8School] =
      [c8School].map (fun s => (s.id, mkMarker s)) ∧
    markersEffect [("old-id", staleMarker)] [c8School] =
      markersEffect [] [c8School] := by
  have h := C8_marker_redraw [("old-id", staleMarker)] [] [c8School]
  have hne : ([c8School] : List School) ≠ [] := by decide
  have hnd : (([c8School] : List School).map (fun s => s.id)).Nodup := by
    simp
  exact ⟨h.2.1 hnd hne, h.1 hne⟩

def c9Marker : Marker :=
  { lat := JsNum.nan, lng := JsNum.nan, title := "Selected School", icon := "i" }

def c9School : School :=
  { id := "S1", name := "Selected School", address := "2 Avenue",
    latitude := JsNum.nan, longitude := JsNum.nan,
    schStatus := SchoolStatus.Defined, administrativeDesignation := "D",
    district := "9" }

def c9View : ViewState :=
  { center := (JsNum.nan, JsNum.nan), zoom := 11, openPopup := none }

/-- C9: for every entity whose marker is in the registry, the selection
effect re-centers on the coordinates of the entity, sets the fixed
close-in zoom level 15 and opens the popup with the content for its
marker; applying the effect a second time yields the same view state as
applying it once (selection is idempotent). -/
theorem C9_selection_idempotent (registry : List (String × Marker))
    (v : ViewState) (s : School)
    (h : (lookupMarker registry s.id).isSome = true) :
    selectionEffect registry (some s) v =
      { center := (s.latitude, s.longitude), zoom := 15,
        openPopup := some (popupContentFor s) } ∧
    selectionEffect registry (some s) (selectionEffect registry (some s) v) =
      selectionEffect registry (some s) v := by
  cases hm : lookupMarker registry s.id with
  | none =>
    rw [hm] at h
    exact absurd h (by simp)
  | some m =>
    constructor
    · simp [selectionEffect, hm]
    · simp [selectionEffect, hm]

theorem C9_witness :
    selectionEffect [("S1", c9Marker)] (some c9School) c9View =
      { center := (c9School.latitude, c9School.longitude), zoom := 15,
        openPopup := some (popupContentFor c9School) } ∧
    selectionEffect [("S1", c9Marker)] (some c9School)
        (selectionEffect [("S1", c9Marker)] (some c9School) c9View) =
      selectionEffect [("S1", c9Marker)] (some c9School) c9View := by
  have hsome : (lookupMarker [("S1", c9Marker)] c9School.id).isSome = true := by
    decide
  exact C9_selection_idempotent [("S1", c9Marker)] c9View c9School hsome

end SchoolMap
